import Mathlib

/-!
Verification development for the Sparrow object-relational mapping layer
(`sparrow/entity.py`, `sparrow/sql.py`, `sparrow/model.py`).

The Python source is shallowly embedded: each relevant Python method becomes a
Lean function on an explicit state; Python exceptions become an error type
returned through `Except` or an `Option` component; Python `dict`s become
association lists; Python object identity becomes a `Nat` id into an explicit
heap.  Machine-level details (weak references / garbage collection, the
asynchronous driver) are represented by their observable effects: cache
entries persist as long as the referenced instance is assumed reachable, and
each storage operation is counted so that "no storage round trip" is a
provable statement.
-/

set_option autoImplicit false

namespace Sparrow

/-- Lookup in an association list (models lookup in a Python `dict` /
`weakref.WeakValueDictionary`): the first binding of the key wins. -/
def alookup {K V : Type} [DecidableEq K] : List (K × V) → K → Option V
  | [], _ => none
  | (k, v) :: t, k' => if k' = k then some v else alookup t k'

/-- Store into an association list (models `d[k] = v` on a Python `dict`):
replaces the existing binding of `k`, or appends a new one. -/
def aset {K V : Type} [DecidableEq K] : List (K × V) → K → V → List (K × V)
  | [], k, v => [(k, v)]
  | (k', v') :: t, k, v => if k = k' then (k, v) :: t else (k', v') :: aset t k v

/-- Remove the binding of a key from an association list. -/
def adel {K V : Type} [DecidableEq K] : List (K × V) → K → List (K × V)
  | [], _ => []
  | (k', v') :: t, k => if k = k' then t else (k', v') :: adel t k

/-- Python exceptions raised by the embedded code.  `assertionError` models a
failing `assert` statement (an unrecoverable programming error in this code
base), `nameError` models evaluation of an unbound name, `runtimeError`
models the interpreter-raised `RuntimeError`, `notSingle` models
`sparrow.sql.NotSingle` (carrying the row count), and the two constraint
errors model `PropertyConstraintFail` / `ObjectConstraintFail` from
`sparrow/entity.py` (carrying the owning object id and the property name). -/
inductive PyErr where
  | assertionError (msg : String)
  | nameError (nm : String)
  | runtimeError (msg : String)
  | notSingle (rowcount : Nat)
  | propertyConstraintFail (obj : Nat) (propName : String)
  | objectConstraintFail (obj : Nat)
  deriving DecidableEq, Repr

/-- Message of the `assert False, "Each class must have a key"` statement in
`MetaEntity.__new__`. -/
def msgNoKey : String := "Each class must have a key"

/-- Message CPython attaches to the `RuntimeError` raised by a set iterator
whose underlying set was mutated during iteration. -/
def msgSetChanged : String := "Set changed size during iteration"

/-- The unbound name evaluated by `SingleKey.__set__` when a key constraint
fails (`raise PropertyConstraintFail(obj, single_prop)` -- the bare name
`single_prop` is not defined in that scope). -/
def nmSingleProp : String := "single_prop"

/-- Runtime entity instance, reduced to the fields the claims are about: the
value of its key descriptor (`inst.key`; `none` models Python `None`) and the
`in_db` persistence flag set by `__metainit__` / `insert` / `delete`. -/
structure Inst (K : Type) where
  key : Option K
  in_db : Bool
  deriving DecidableEq, Repr

/-- Runtime state of one entity type: the heap of constructed instances
(object identity as a `Nat` id), the identity-map cache
(`cls.cache`, a `weakref.WeakValueDictionary` from key to instance), and the
next fresh object id.  Weakness of the cache is not modelled as collection:
all theorems hold under the stated assumption that the cached instances
remain reachable. -/
structure EState (K : Type) where
  heap : List (Nat × Inst K)
  cache : List (K × Nat)
  nextId : Nat
  deriving DecidableEq, Repr

/-- Embedding of `MetaEntity.__call__` (`sparrow/entity.py`): construct the
instance (here: allocate the already-initialised `inst` on the heap), then,
if its key is not `None`, either return the cached instance for that key or
register the new instance in the cache.  Returns the id handed to the caller
together with the new state. -/
def metaCall {K : Type} [DecidableEq K] (st : EState K) (inst : Inst K) :
    Nat × EState K :=
  let newId := st.nextId
  let st1 : EState K :=
    { heap := aset st.heap newId inst, cache := st.cache, nextId := st.nextId + 1 }
  match inst.key with
  | none => (newId, st1)
  | some k =>
    match alookup st1.cache k with
    | some cachedId => (cachedId, st1)
    | none => (newId, { st1 with cache := aset st1.cache k newId })

/-- Message of `assert not self.in_db` in `Entity._simple_insert`. -/
def msgAssertNotInDb : String := "not self.in_db"

/-- Message of `assert type(self)._incomplete` in `Entity.insert`. -/
def msgAssertIncomplete : String := "type(self)._incomplete"

/-- Message of `assert self.key is not None` in `Entity.insert`. -/
def msgAssertKeyNotNone : String := "self.key is not None"

/-- Message of `assert self.key not in type(self).cache` in `Entity.insert`:
the cache-invariant violation treated as an unrecoverable programming error. -/
def msgAssertKeyNotCached : String := "self.key not in type(self).cache"

/-- Message of `assert self.in_db` in `Entity.delete`. -/
def msgAssertInDb : String := "self.in_db"

/-- Model artifact: an operation was invoked on an id with no heap entry.
In Python `self` always exists, so no theorem ever reaches this error. -/
def msgModelNoInst : String := "model: dangling instance id"

/-- Embedding of `Entity.find_by_key` (`sparrow/entity.py`): try the identity
map first (`return cls.cache[key]`); on `KeyError`, execute the precompiled
find-by-key query and interpret the result with `SqlResult.single`
(`sparrow/sql.py`), which raises `NotSingle` unless the row count is exactly
one and otherwise constructs the instance from the fetched row — which runs
`MetaEntity.__call__` and hence registers it.  `db` maps a key to the rows
the backing store returns for the find-by-key query; the last component of
the result counts the storage queries issued (0 on a cache hit, 1 on a
miss). -/
def find_by_key {K : Type} [DecidableEq K] (st : EState K) (k : K)
    (db : K → List (Inst K)) : Except PyErr (Nat × EState K × Nat) :=
  match alookup st.cache k with
  | some i => Except.ok (i, st, 0)
  | none =>
    match db k with
    | [row] =>
      let r := metaCall st row
      Except.ok (r.1, r.2, 1)
    | rows => Except.error (PyErr.notSingle rows.length)

/-- Embedding of `Entity._simple_insert`: asserts `not self.in_db`, executes
the compiled insert statement — for an `_incomplete` (surrogate-key) type
with `RETURNING`, writing the backend-generated key `gen` into the key field
(`self.__dict__[cls.key.dataname] = result[0]`) — and sets `in_db = True`.
`self.check()` is a no-op here because `Entity.constraint` defaults to
`None`; object-wide constraints are out of scope of the claims this function
serves. -/
def simple_insert {K : Type} [DecidableEq K] (st : EState K) (i : Nat)
    (incomplete : Bool) (gen : K) : Except PyErr (EState K) :=
  match alookup st.heap i with
  | none => Except.error (PyErr.assertionError msgModelNoInst)
  | some inst =>
    if inst.in_db then Except.error (PyErr.assertionError msgAssertNotInDb)
    else
      let inst1 : Inst K :=
        if incomplete then { inst with key := some gen, in_db := true }
        else { inst with in_db := true }
      Except.ok { st with heap := aset st.heap i inst1 }

/-- Embedding of `Entity.insert`: when `self.key is None`, assert the type is
`_incomplete`, run `_simple_insert` (which assigns the generated key), then
assert the key is now set and not already cached — a failing assert models
the fatal cache-invariant violation — and register the instance in the
identity map.  When the key is already non-null, just `_simple_insert`. -/
def entity_insert {K : Type} [DecidableEq K] (st : EState K) (i : Nat)
    (incomplete : Bool) (gen : K) : Except PyErr (EState K) :=
  match alookup st.heap i with
  | none => Except.error (PyErr.assertionError msgModelNoInst)
  | some inst =>
    match inst.key with
    | none =>
      if incomplete = false then Except.error (PyErr.assertionError msgAssertIncomplete)
      else
        match simple_insert st i incomplete gen with
        | Except.error e => Except.error e
        | Except.ok st1 =>
          match alookup st1.heap i with
          | none => Except.error (PyErr.assertionError msgModelNoInst)
          | some inst1 =>
            match inst1.key with
            | none => Except.error (PyErr.assertionError msgAssertKeyNotNone)
            | some kk =>
              match alookup st1.cache kk with
              | some _ => Except.error (PyErr.assertionError msgAssertKeyNotCached)
              | none => Except.ok { st1 with cache := aset st1.cache kk i }
    | some _ => simple_insert st i incomplete gen

/-- Embedding of `Entity.delete`: asserts `self.in_db`, executes the compiled
delete statement (counted in the second component), and clears `in_db`.  The
identity-map cache is not touched. -/
def entity_delete {K : Type} [DecidableEq K] (st : EState K) (i : Nat) :
    Except PyErr (EState K × Nat) :=
  match alookup st.heap i with
  | none => Except.error (PyErr.assertionError msgModelNoInst)
  | some inst =>
    if inst.in_db = false then Except.error (PyErr.assertionError msgAssertInDb)
    else Except.ok ({ st with heap := aset st.heap i { inst with in_db := false } }, 1)

/-- Hook invocations observable during the live-update protocol, in the order
they happen: `dbDelete` is the execution of the compiled DELETE statement,
`deleteHook l` is `l.delete(self)` on listener `l`. -/
inductive RTEvent where
  | dbDelete
  | deleteHook (l : Nat)
  | updateHook (l : Nat)
  deriving DecidableEq, Repr

/-- State of one real-time entity instance: its listener set
(`self._listeners`, a Python `set`, kept here in iteration order), the
listenee sets of the listeners involved (listener id to the list of entity
ids it observes), and the entity's `in_db` flag. -/
structure RTState where
  listeners : List Nat
  listenees : List (Nat × List Nat)
  in_db : Bool
  deriving DecidableEq, Repr

/-- Modelled from the spec: `Listener._add_listenee` — the `Listener` class
in the source is an interface of documentation stubs; per its docstrings and
the spec, implementations keep a set of listenees, to which this adds the
entity `e`. -/
def add_listenee (ls : List (Nat × List Nat)) (l : Nat) (e : Nat) :
    List (Nat × List Nat) :=
  match alookup ls l with
  | none => aset ls l [e]
  | some s => aset ls l (if e ∈ s then s else s ++ [e])

/-- Modelled from the spec: `Listener._remove_listenee` — removes the entity
`e` from listener `l`'s listenee set (see `add_listenee`). -/
def remove_listenee (ls : List (Nat × List Nat)) (l : Nat) (e : Nat) :
    List (Nat × List Nat) :=
  match alookup ls l with
  | none => ls
  | some s => aset ls l (s.erase e)

/-- Removes the entity `e` from the listenee set of every listener in the
given list, in order (the loop body of `RTEntity.delete`). -/
def remove_listenee_all (ls : List (Nat × List Nat)) (listeners : List Nat)
    (e : Nat) : List (Nat × List Nat) :=
  match listeners with
  | [] => ls
  | l :: t => remove_listenee_all (remove_listenee ls l e) t e

/-- Embedding of `RTEntity.add_listener`: add `l` to the entity's listener
set and back-register the entity `e` on `l` (`l._add_listenee(self)`). -/
def add_listener (st : RTState) (e l : Nat) : RTState :=
  { st with
    listeners := if l ∈ st.listeners then st.listeners else st.listeners ++ [l],
    listenees := add_listenee st.listenees l e }

/-- Embedding of `RTEntity.delete` for entity `e`: first `Entity.delete`
(assert `in_db`, execute the DELETE statement, clear `in_db`), then
`for l in self._listeners: l.delete(self); l._remove_listenee(self)`.
The loop notifies each listener's delete hook once and removes `e` from each
listener's listenee set, but — exactly as in the source — `self._listeners`
itself is never cleared. -/
def rt_delete (e : Nat) (st : RTState) : Except PyErr (RTState × List RTEvent) :=
  if st.in_db = false then Except.error (PyErr.assertionError msgAssertInDb)
  else
    Except.ok
      ({ st with
          in_db := false,
          listenees := remove_listenee_all st.listenees st.listeners e },
       RTEvent.dbDelete :: st.listeners.map RTEvent.deleteHook)

/-- Embedding of `RTEntity.remove_all_listeners` for entity `e`:
`for l in self._listeners: self._listeners.remove(l); l._remove_listenee(self)`.
The loop mutates the set it is iterating; per CPython set-iterator semantics
the call into the iterator that follows the first removal raises
`RuntimeError("Set changed size during iteration")`, so on a nonempty set
exactly one listener is removed (and back-unregistered) before the error
propagates.  The result pairs the state left behind with the raised error,
if any. -/
def remove_all_listeners (e : Nat) (st : RTState) : RTState × Option PyErr :=
  match st.listeners with
  | [] => (st, none)
  | l :: rest =>
    ({ st with listeners := rest, listenees := remove_listenee st.listenees l e },
     some (PyErr.runtimeError msgSetChanged))

/-- Value of one storage slot of a Python object's `__dict__`: the name can
be absent (lookup raises `KeyError`), bound to `None`, or bound to a value. -/
inductive PyField (V : Type) where
  | absent
  | pynull
  | val (v : V)
  deriving DecidableEq, Repr

/-- Observable steps of a foreign-key field assignment, in order:
`removeReferenceCall t r` is `cache[old_key].remove_reference(self, obj)` on
the cached target instance `t` with referrer `r`, `fieldWrite v` is the write
of the new value into the referrer's storage fields, and
`newReferenceCall t r` is `cache[new_key].new_reference(self, obj)`. -/
inductive SetEvent (K : Type) where
  | removeReferenceCall (target : Nat) (refObj : Nat)
  | fieldWrite (v : K)
  | newReferenceCall (target : Nat) (refObj : Nat)
  deriving DecidableEq, Repr

/-- Embedding of `RTSingleReference.__set__`: read the old referenced key
from the referrer's storage (a `KeyError` from an absent slot is swallowed by
the `except KeyError: pass`; a stored `None` is never a cache key, because
`MetaEntity.__call__` only registers non-null keys); if the old key is
cached, call the cached target's `remove_reference` hook with the referrer;
write the new value; if the new value is a cached key, call that target's
`new_reference` hook with the referrer.  Returns the referrer's updated
storage slot and the ordered event trace. -/
def rtSingleReference_set {V : Type} [DecidableEq V] (cache : List (V × Nat))
    (field : PyField V) (objId : Nat) (v : V) : PyField V × List (SetEvent V) :=
  let pre : List (SetEvent V) :=
    match field with
    | PyField.absent => []
    | PyField.pynull => []
    | PyField.val k =>
      match alookup cache k with
      | some t => [SetEvent.removeReferenceCall t objId]
      | none => []
  let post : List (SetEvent V) :=
    match alookup cache v with
    | some t => [SetEvent.newReferenceCall t objId]
    | none => []
  (PyField.val v, pre ++ SetEvent.fieldWrite v :: post)

/-- Embedding of `Reference.__get__` as used by `RTReference.__set__`: build
the tuple of the stored reference columns; an absent slot raises `KeyError`
(here `none`).  A stored Python `None` becomes a `none` component of the
tuple — composite cache keys may legitimately contain `None`. -/
def pyTupleGet {V : Type} : List (PyField V) → Option (List (Option V))
  | [] => some []
  | PyField.absent :: _ => none
  | PyField.pynull :: t => (pyTupleGet t).map (fun r => none :: r)
  | PyField.val v :: t => (pyTupleGet t).map (fun r => some v :: r)

/-- Embedding of `RTReference.__set__` (the multi-column variant): same
protocol as `rtSingleReference_set` with the old key read as the tuple of
stored columns and the new value written column by column (represented by a
single `fieldWrite` event carrying the tuple, at the position of the loop). -/
def rtReference_set {V : Type} [DecidableEq V]
    (cache : List (List (Option V) × Nat)) (fields : List (PyField V))
    (objId : Nat) (vs : List (Option V)) :
    List (PyField V) × List (SetEvent (List (Option V))) :=
  let pre : List (SetEvent (List (Option V))) :=
    match pyTupleGet fields with
    | none => []
    | some key =>
      match alookup cache key with
      | some t => [SetEvent.removeReferenceCall t objId]
      | none => []
  let post : List (SetEvent (List (Option V))) :=
    match alookup cache vs with
    | some t => [SetEvent.newReferenceCall t objId]
    | none => []
  (vs.map (fun o => match o with
    | none => PyField.pynull
    | some v => PyField.val v),
   pre ++ SetEvent.fieldWrite vs :: post)

/-- Example property name used in concrete evaluations. -/
def pnPassword : String := "password"

/-- Dataname the metaclass gives a constrained property named `password`
(`p.dataname = "_data_" + p.name`). -/
def dnPassword : String := "_data_password"

/-- Embedding of `ConstrainedProperty.__set__`: if the property's constraint
rejects the value, raise `PropertyConstraintFail(obj, self)` — carrying the
owning instance and the offending property — without writing; otherwise
store the value under the property's dataname. -/
def constrainedProperty_set {V : Type} (constraint : V → Bool) (objId : Nat)
    (propName : String) (store : List (String × V)) (dataname : String)
    (v : V) : Except PyErr (List (String × V)) :=
  if constraint v = false then
    Except.error (PyErr.propertyConstraintFail objId propName)
  else Except.ok (aset store dataname v)

/-- Embedding of `SingleKey.__set__`: if the single key property carries a
constraint that rejects the value, the source executes
`raise PropertyConstraintFail(obj, single_prop)`; evaluating the bare name
`single_prop` (instead of `self.single_prop`) raises `NameError` before any
exception object is built, and nothing is written.  Otherwise the value is
stored under the key property's dataname. -/
def singleKey_set {V : Type} (constraint : Option (V → Bool))
    (store : List (String × V)) (dataname : String) (v : V) :
    Except PyErr (List (String × V)) :=
  match constraint with
  | some c =>
    if c v = false then Except.error (PyErr.nameError nmSingleProp)
    else Except.ok (aset store dataname v)
  | none => Except.ok (aset store dataname v)

/-- Python-level value types a `Property` can be declared with (the `Enum`
case, which carries its own SQL type machinery, is outside the claims). -/
inductive PyType where
  | int
  | str
  | float
  | bool
  | datetime
  deriving DecidableEq, Repr

/-- Embedding of `Property.default_sqltypes`. -/
def default_sqltypes : PyType → String
  | PyType.int => "INT"
  | PyType.str => "VARCHAR"
  | PyType.float => "DOUBLE PRECISION"
  | PyType.bool => "BOOL"
  | PyType.datetime => "TIMESTAMP"

/-- A `Property(...)` declaration as written in a class body, before the
metaclass assigns its name: value type, optional explicit SQL type (when
`None`, `Property.__init__` fills in `default_sqltypes[typ]`), per-column
extra constraint text, `required` and `json` flags. -/
structure PropDecl where
  typ : PyType
  sql_type : Option String
  sql_extra : String
  required : Bool
  json : Bool
  deriving DecidableEq, Repr

/-- A resolved property (name assigned by the metaclass, SQL type filled
in): what `Property` carries when statements are compiled. -/
structure RProp where
  name : String
  sql_type : String
  sql_extra : String
  required : Bool
  json : Bool
  deriving DecidableEq, Repr

/-- Embedding of `Property.type_sql_def`: SQL type, the extra constraint
text when nonempty, and `NOT NULL` when required. -/
def RProp.type_sql_def (p : RProp) : String :=
  p.sql_type ++ (if p.sql_extra = "" then "" else " " ++ p.sql_extra) ++
    (if p.required then " NOT NULL" else "")

/-- Embedding of `Property.sql_def`: the column definition line. -/
def RProp.sql_def (p : RProp) : String :=
  "\t" ++ p.name ++ " " ++ p.type_sql_def

/-- The resolved property a `KeyProperty()` becomes:
`Property.__init__(self, int, sql_type="SERIAL", required=False)` with the
binding's name assigned by the metaclass. -/
def keyPropertyRProp (nm : String) : RProp :=
  RProp.mk nm "SERIAL" "" false true

/-- A `Reference(...)` declaration.  Its target is an already-created
EntityType: `Reference.__init__` immediately reads
`list(ref.key.referencing_props())`, so a reference can only be declared to
a type whose key is resolved — the embedding records the target's table name
and resolved key properties. -/
structure RefDecl where
  refTable : String
  refKeyProps : List RProp
  json : Bool
  cascade : Bool
  deriving DecidableEq, Repr

/-- Embedding of the expansion loop of `Reference.__postinit__`: one
synthetic property per component of the referenced key, named
`<reference name>_<referenced column name>`, inheriting the referenced
column's SQL type except that `SERIAL` becomes plain `INT`; the synthetic
properties take `Property.__init__` defaults (`sql_extra=""`,
`required=True`) and the reference's `json` flag. -/
def expandRef (nm : String) (r : RefDecl) : List RProp :=
  r.refKeyProps.map (fun rp =>
    RProp.mk (nm ++ "_" ++ rp.name)
      (if rp.sql_type = "SERIAL" then "INT" else rp.sql_type)
      "" true r.json)

/-- A resolved reference: name, expanded properties, target table and
cascade flag (`single` records the single-column specialization
`RTSingleReference`/`SingleReference`). -/
structure RRef where
  name : String
  props : List RProp
  refTable : String
  cascade : Bool
  single : Bool
  deriving DecidableEq, Repr

/-- Embedding of `Reference.sql_constraint`, faithfully including the
operator precedence of the source line
`"\tFOREIGN KEY ({own_props}) REFERENCES {ref_name}".format(...) + " ON DELETE CASCADE" if self.cascade else ""`:
in Python the conditional expression wraps the whole concatenation, so a
reference with `cascade=False` yields the empty string, not a foreign-key
clause. -/
def RRef.sql_constraint (r : RRef) : String :=
  if r.cascade then
    "\tFOREIGN KEY (" ++ String.intercalate ", " (r.props.map RProp.name) ++
      ") REFERENCES " ++ r.refTable ++ " ON DELETE CASCADE"
  else ""

/-- One component of a `Key(...)` declaration: an own property or a
declared reference, named by its class-body binding. -/
inductive KeyComp where
  | prop (nm : String)
  | ref (nm : String)
  deriving DecidableEq, Repr

/-- The `key` binding of a class body: either a dedicated surrogate
`KeyProperty()` or a composite `Key(...)` over properties and references. -/
inductive KeyDecl where
  | keyProperty (nm : String)
  | composite (comps : List KeyComp)
  deriving DecidableEq, Repr

/-- One binding of an entity class body, in declaration order, as the
metaclass sees it (`classitems`): a property, a reference, or the
`KeyProperty` column binding. -/
inductive ClassItem where
  | prop (nm : String) (p : PropDecl)
  | ref (nm : String) (r : RefDecl)
  | keyprop (nm : String)
  deriving DecidableEq, Repr

/-- An entity class declaration: class name, ordered class body, and the
`key` binding (`none` when the class declares no key). -/
structure EntityDecl where
  name : String
  items : List ClassItem
  key : Option KeyDecl
  deriving DecidableEq, Repr

/-- Message of `assert len(self.ref_props) >= 1` in `Reference.__init__`. -/
def msgRefNonempty : String := "len(self.ref_props) >= 1"

/-- Message of `assert len(self.props) >= 1` in `Key.__postinit__`. -/
def msgKeyNonempty : String := "len(self.props) >= 1"

/-- Message of `assert len(refs) == 1` in `SparrowModel.json_info`. -/
def msgMultiRefKey : String := "Multiple references in key not yet supported"

/-- Model artifact: a `Key(...)` component object that is not among the
class's properties or references — impossible in Python, where the key holds
direct object references into the class body. -/
def msgModelUnknownName : String := "model: unknown key component"

/-- Resolution of one property declaration (`MetaEntity.__new__` props
loop together with `Property.__init__` SQL-type defaulting). -/
def resolveProp (nm : String) (p : PropDecl) : RProp :=
  RProp.mk nm
    (match p.sql_type with
     | some s => s
     | none => default_sqltypes p.typ)
    p.sql_extra p.required p.json

/-- Resolution of one reference declaration: the `Reference.__init__`
nonemptiness assert, then the `__postinit__` expansion and single-column
specialization. -/
def resolveRef (nm : String) (r : RefDecl) : Except PyErr RRef :=
  if r.refKeyProps.length = 0 then
    Except.error (PyErr.assertionError msgRefNonempty)
  else
    let ps := expandRef nm r
    Except.ok (RRef.mk nm ps r.refTable r.cascade (ps.length == 1))

/-- Resolution of the ordered reference declarations of a class body. -/
def resolveRefs : List (String × RefDecl) → Except PyErr (List RRef)
  | [] => Except.ok []
  | (nm, r) :: t =>
    match resolveRef nm r with
    | Except.error e => Except.error e
    | Except.ok rr =>
      match resolveRefs t with
      | Except.error e => Except.error e
      | Except.ok rs => Except.ok (rr :: rs)

/-- Embedding of the expansion loop of `Key.__postinit__`: a reference
component contributes its expanded properties, a property component
contributes itself. -/
def resolveKeyComps (props : List RProp) (refs : List RRef) :
    List KeyComp → Except PyErr (List RProp)
  | [] => Except.ok []
  | KeyComp.prop nm :: t =>
    match props.find? (fun p => p.name == nm) with
    | none => Except.error (PyErr.assertionError msgModelUnknownName)
    | some p =>
      match resolveKeyComps props refs t with
      | Except.error e => Except.error e
      | Except.ok ps => Except.ok (p :: ps)
  | KeyComp.ref nm :: t =>
    match refs.find? (fun r => r.name == nm) with
    | none => Except.error (PyErr.assertionError msgModelUnknownName)
    | some r =>
      match resolveKeyComps props refs t with
      | Except.error e => Except.error e
      | Except.ok ps => Except.ok (r.props ++ ps)

/-- The compiled schema of an entity type, as the claims need it: table
name, the full ordered property list `cls._props` (ordinary and
`KeyProperty` columns in declaration order, then the reference expansions),
the resolved references, the key's referencing properties with the
single-column specialization flag, the number of `Reference` objects among
the declared key's original components (`Key.orig_props`, scanned by
`SparrowModel.json_info`), and the `_incomplete` (surrogate-key) flag. -/
structure ResolvedEntity where
  tableName : String
  props : List RProp
  refs : List RRef
  keyProps : List RProp
  keySingle : Bool
  origKeyRefCount : Nat
  incomplete : Bool
  deriving DecidableEq, Repr

/-- Embedding of the schema-resolution part of `MetaEntity.__new__`:
resolve the ordered properties, resolve and expand the ordered references
(extending the full property list), then handle the `key` binding — a
missing key dies on `assert False, "Each class must have a key"`, a
`KeyProperty` marks the type `_incomplete`, and a composite `Key` is
expanded over its components with the nonemptiness assert and the
single-component specialization.  The table name is `"table_" + name`. -/
def resolve (d : EntityDecl) : Except PyErr ResolvedEntity :=
  let baseProps : List RProp := d.items.filterMap (fun it =>
    match it with
    | ClassItem.prop nm p => some (resolveProp nm p)
    | ClassItem.keyprop nm => some (keyPropertyRProp nm)
    | ClassItem.ref _ _ => none)
  let refItems : List (String × RefDecl) := d.items.filterMap (fun it =>
    match it with
    | ClassItem.ref nm r => some (nm, r)
    | _ => none)
  match resolveRefs refItems with
  | Except.error e => Except.error e
  | Except.ok rrefs =>
    let allProps := baseProps ++ (rrefs.map RRef.props).flatten
    match d.key with
    | none => Except.error (PyErr.assertionError msgNoKey)
    | some (KeyDecl.keyProperty nm) =>
      Except.ok (ResolvedEntity.mk ("table_" ++ d.name) allProps rrefs
        [keyPropertyRProp nm] true 0 true)
    | some (KeyDecl.composite comps) =>
      match resolveKeyComps allProps rrefs comps with
      | Except.error e => Except.error e
      | Except.ok kprops =>
        if kprops.length = 0 then
          Except.error (PyErr.assertionError msgKeyNonempty)
        else
          Except.ok (ResolvedEntity.mk ("table_" ++ d.name) allProps rrefs
            kprops (kprops.length == 1)
            (comps.countP (fun c =>
              match c with
              | KeyComp.ref _ => true
              | KeyComp.prop _ => false))
            false)

/-- Embedding of `Key.sql_constraint` / `KeyProperty.sql_constraint`: the
primary-key clause over the key's referencing properties. -/
def key_sql_constraint (r : ResolvedEntity) : String :=
  "\tPRIMARY KEY (" ++ String.intercalate ", " (r.keyProps.map RProp.name) ++ ")"

/-- Embedding of `CreateTable.__str__` with `sql_create_table_template`: one
column definition per property, the references' constraint strings, and the
primary-key constraint, joined by `",\n"` inside the template. -/
def createTable (r : ResolvedEntity) : String :=
  "\nCREATE TABLE " ++ r.tableName ++ " (\n" ++
    String.intercalate ",\n"
      (r.props.map RProp.sql_def ++ r.refs.map RRef.sql_constraint ++
        [key_sql_constraint r]) ++
    "\n); \n"

/-- Embedding of the key scan in `SparrowModel.json_info` (`sparrow/model.py`):
only for a composite key (`isinstance(c.key, Key) and not isinstance(c.key,
Property)` excludes `KeyProperty`) and only when the class has a custom
`json_repr` (`possible_for`), the references among the key's original
components are counted and `assert len(refs) == 1` rejects a key with more
than one reference — this is the sole guard against multiple references in a
key, and it runs at report time, not at schema resolution. -/
def json_info_key_check (r : ResolvedEntity) (customJsonRepr : Bool) :
    Option PyErr :=
  if r.incomplete then none
  else if customJsonRepr = true ∧ 0 < r.origKeyRefCount then
    (if r.origKeyRefCount = 1 then none
     else some (PyErr.assertionError msgMultiRefKey))
  else none

/-- Concrete schema: `class User(RTEntity)` with a required string property
and a surrogate key, as in the usage example of the source's module
docstring. -/
def userDecl : EntityDecl :=
  EntityDecl.mk "User"
    [ClassItem.prop "name" (PropDecl.mk PyType.str none "" true true),
     ClassItem.keyprop "UID"]
    (some (KeyDecl.keyProperty "UID"))

/-- The resolved `User` type, referenced by the schemas below. -/
def userRef (cascade : Bool) : RefDecl :=
  RefDecl.mk "table_User" [keyPropertyRProp "UID"] true cascade

/-- Concrete schema: a `Message` entity with one string property, one
reference to `User` (cascade as given), and its own surrogate key. -/
def messageDecl (cascade : Bool) : EntityDecl :=
  EntityDecl.mk "Message"
    [ClassItem.prop "msg" (PropDecl.mk PyType.str none "" true true),
     ClassItem.ref "author" (userRef cascade),
     ClassItem.keyprop "MID"]
    (some (KeyDecl.keyProperty "MID"))

/-- Concrete schema: an entity whose composite key contains two references —
the case the statement compiler does not support. -/
def pairDecl : EntityDecl :=
  EntityDecl.mk "Pair"
    [ClassItem.ref "a" (userRef true),
     ClassItem.ref "b" (userRef true)]
    (some (KeyDecl.composite [KeyComp.ref "a", KeyComp.ref "b"]))

/-- Concrete schema: a class body that declares no key. -/
def noKeyDecl : EntityDecl :=
  EntityDecl.mk "Broken"
    [ClassItem.prop "x" (PropDecl.mk PyType.int none "" true true)]
    none

end Sparrow

namespace Sparrow

theorem alookup_aset_self {K V : Type} [DecidableEq K] (l : List (K × V)) (k : K) (v : V) :
    alookup (aset l k v) k = some v := by
  induction l with
  | nil => simp [aset, alookup]
  | cons p t ih =>
    by_cases h : k = p.1
    · simp [aset, h, alookup]
    · simp [aset, h, alookup, ih]

theorem alookup_aset_ne {K V : Type} [DecidableEq K] (l : List (K × V)) (k k' : K) (v : V)
    (h : k' ≠ k) : alookup (aset l k v) k' = alookup l k' := by
  induction l with
  | nil => simp [aset, alookup, h]
  | cons p t ih =>
    by_cases hk : k = p.1
    · subst hk
      simp [aset, alookup, h]
    · by_cases hk' : k' = p.1
      · simp [aset, hk, alookup, hk']
      · simp [aset, hk, alookup, hk', ih]

/-- After `metaCall` with a non-null key `k`, the cache maps `k` exactly to
the id that was returned to the caller. -/
theorem metaCall_cached {K : Type} [DecidableEq K] (st : EState K) (inst : Inst K) (k : K)
    (hk : inst.key = some k) :
    alookup (metaCall st inst).2.cache k = some (metaCall st inst).1 := by
  unfold metaCall
  rw [hk]
  cases hcc : alookup st.cache k with
  | none => simp [hcc, alookup_aset_self]
  | some i => simp [hcc]

/-- `metaCall` never removes or changes an existing cache binding. -/
theorem metaCall_cache_mono {K : Type} [DecidableEq K] (st : EState K) (inst : Inst K)
    (k : K) (i : Nat) (h : alookup st.cache k = some i) :
    alookup (metaCall st inst).2.cache k = some i := by
  unfold metaCall
  cases hkey : inst.key with
  | none => simpa using h
  | some k' =>
    cases hcc : alookup st.cache k' with
    | some j => simpa [hcc] using h
    | none =>
      have hne : k ≠ k' := by
        intro he
        rw [he, hcc] at h
        exact Option.noConfusion h
      simpa [hcc, alookup_aset_ne _ _ _ _ hne] using h

/-- On a cache hit for the instance's key, `metaCall` returns the cached id. -/
theorem metaCall_hit {K : Type} [DecidableEq K] (st : EState K) (inst : Inst K)
    (k : K) (i : Nat) (hk : inst.key = some k) (hi : alookup st.cache k = some i) :
    (metaCall st inst).1 = i := by
  unfold metaCall
  rw [hk]
  simp [hi]

/-- C1: at most one live instance per key.  Constructing an instance whose
key `k` is not `None` returns the cached instance (leaving the cache
unchanged) when the identity map already holds an entry for `k`, and
otherwise registers the new instance under `k`; consequently a second
independent construction with the same key returns the identical object. -/
theorem c1_identity_map_unique_instance (K : Type) [DecidableEq K]
    (st : EState K) (inst inst2 : Inst K) (k : K) (hk : inst.key = some k) :
    (∀ i, alookup st.cache k = some i →
      (metaCall st inst).1 = i ∧ (metaCall st inst).2.cache = st.cache) ∧
    (alookup st.cache k = none →
      (metaCall st inst).1 = st.nextId ∧
      alookup (metaCall st inst).2.cache k = some st.nextId) ∧
    (inst2.key = some k →
      (metaCall (metaCall st inst).2 inst2).1 = (metaCall st inst).1) := by
  refine ⟨?_, ?_, ?_⟩
  · intro i hi
    unfold metaCall
    rw [hk]
    simp [hi]
  · intro hmiss
    unfold metaCall
    rw [hk]
    simp [hmiss, alookup_aset_self]
  · intro hk2
    exact metaCall_hit (metaCall st inst).2 inst2 k (metaCall st inst).1 hk2
      (metaCall_cached st inst k hk)

/-- Witness for C1 at a concrete input: an empty cache, then two
constructions with key `5`; the first registers id `0`, the second returns
the same id `0`. -/
theorem c1_identity_map_unique_instance_witness :
    (metaCall (EState.mk [] [] 0) (Inst.mk (some 5) false)).1 = 0 ∧
    (metaCall (metaCall (EState.mk [] [] 0) (Inst.mk (some 5) false)).2
      (Inst.mk (some 5) false)).1 =
      (metaCall (EState.mk [] [] 0) (Inst.mk (some 5) false)).1 := by
  have h := c1_identity_map_unique_instance Nat (EState.mk [] [] 0)
    (Inst.mk (some 5) false) (Inst.mk (some 5) false) 5 rfl
  exact ⟨(h.2.1 rfl).1, h.2.2 rfl⟩

/-- C5: `find_by_key` on a cache hit returns the cached instance with zero
storage queries and an unchanged state; on a cache miss it issues exactly one
find-by-key query, constructs the instance from the returned row (registering
it in the cache under its key), returns it, and a second `find_by_key` with
the same key then hits the cache with zero storage queries. -/
theorem c5_find_by_key_cache (K : Type) [DecidableEq K] (st : EState K) (k : K)
    (row : Inst K) (db : K → List (Inst K))
    (hmiss : alookup st.cache k = none) (hdb : db k = [row]) (hkey : row.key = some k) :
    (∀ (st2 : EState K) (i : Nat), alookup st2.cache k = some i →
      find_by_key st2 k db = Except.ok (i, st2, 0)) ∧
    find_by_key st k db = Except.ok (st.nextId, (metaCall st row).2, 1) ∧
    alookup (metaCall st row).2.cache k = some st.nextId ∧
    find_by_key (metaCall st row).2 k db =
      Except.ok (st.nextId, (metaCall st row).2, 0) := by
  have hhit : ∀ (st2 : EState K) (i : Nat), alookup st2.cache k = some i →
      find_by_key st2 k db = Except.ok (i, st2, 0) := by
    intro st2 i hi
    unfold find_by_key
    simp [hi]
  have hid : (metaCall st row).1 = st.nextId := by
    unfold metaCall
    rw [hkey]
    simp [hmiss]
  have hreg : alookup (metaCall st row).2.cache k = some st.nextId := by
    have h := metaCall_cached st row k hkey
    rw [hid] at h
    exact h
  refine ⟨hhit, ?_, hreg, hhit _ _ hreg⟩
  unfold find_by_key
  rw [hmiss, hdb]
  simp [hid]

/-- Witness for C5 at a concrete input: empty cache, a backing store that
returns exactly one row with key `3`; the miss issues one query and the
follow-up lookup is served from the cache with zero queries. -/
theorem c5_find_by_key_cache_witness :
    find_by_key (EState.mk [] [] 0) 3 (fun _ => [Inst.mk (some 3) true]) =
      Except.ok (0, (metaCall (EState.mk [] [] 0) (Inst.mk (some 3) true)).2, 1) ∧
    find_by_key (metaCall (EState.mk [] [] 0) (Inst.mk (some 3) true)).2 3
        (fun _ => [Inst.mk (some 3) true]) =
      Except.ok (0, (metaCall (EState.mk [] [] 0) (Inst.mk (some 3) true)).2, 0) := by
  have h := c5_find_by_key_cache Nat (EState.mk [] [] 0) 3 (Inst.mk (some 3) true)
    (fun _ => [Inst.mk (some 3) true]) rfl rfl rfl
  exact ⟨h.2.1, h.2.2.2⟩

/-- C6: a surrogate-key insert on an instance whose key is `None` either
(a) succeeds, leaving the instance with the non-null store-assigned key `gen`,
persisted, and registered in the identity map under `gen`, or (b) — when an
entry for the generated key is already cached — fails with the
`assert self.key not in type(self).cache` assertion, i.e. an unrecoverable
programming error, not a recoverable exception. -/
theorem c6_surrogate_insert (K : Type) [DecidableEq K] (st : EState K) (i : Nat)
    (inst : Inst K) (gen : K)
    (hheap : alookup st.heap i = some inst) (hkey : inst.key = none)
    (hdb : inst.in_db = false) :
    (alookup st.cache gen = none →
      ∃ st1, entity_insert st i true gen = Except.ok st1 ∧
        alookup st1.heap i = some (Inst.mk (some gen) true) ∧
        alookup st1.cache gen = some i) ∧
    (∀ j, alookup st.cache gen = some j →
      entity_insert st i true gen =
        Except.error (PyErr.assertionError msgAssertKeyNotCached)) := by
  have hsimp : simple_insert st i true gen =
      Except.ok { st with heap := aset st.heap i (Inst.mk (some gen) true) } := by
    unfold simple_insert
    rw [hheap]
    simp [hdb]
  constructor
  · intro hmiss
    refine ⟨EState.mk (aset st.heap i (Inst.mk (some gen) true))
      (aset st.cache gen i) st.nextId, ?_, ?_, ?_⟩
    · unfold entity_insert
      rw [hheap]
      simp [hkey, hsimp, alookup_aset_self, hmiss]
    · simp [alookup_aset_self]
    · simp [alookup_aset_self]
  · intro j hj
    unfold entity_insert
    rw [hheap]
    simp [hkey, hsimp, alookup_aset_self, hj]

/-- Witness for C6 at a concrete input: one fresh instance (id 0, key `None`,
not persisted); insert with generated key `7` on an empty cache succeeds and
registers it; on a cache that already holds key `7` the insert dies on the
cache-invariant assertion. -/
theorem c6_surrogate_insert_witness :
    (∃ st1, entity_insert (EState.mk [(0, Inst.mk none false)] [] 1) 0 true 7 =
        Except.ok st1 ∧
      alookup st1.heap 0 = some (Inst.mk (some 7) true) ∧
      alookup st1.cache 7 = some 0) ∧
    entity_insert (EState.mk [(0, Inst.mk none false)] [(7, 9)] 1) 0 true 7 =
      Except.error (PyErr.assertionError msgAssertKeyNotCached) := by
  have h1 := c6_surrogate_insert Nat (EState.mk [(0, Inst.mk none false)] [] 1)
    0 (Inst.mk none false) 7 rfl rfl rfl
  have h2 := c6_surrogate_insert Nat (EState.mk [(0, Inst.mk none false)] [(7, 9)] 1)
    0 (Inst.mk none false) 7 rfl rfl rfl
  exact ⟨h1.1 rfl, h2.2 9 rfl⟩

/-- C10: a successful `Entity.delete` clears `in_db` but does not evict the
instance from the identity map; while the instance stays reachable, a
subsequent `find_by_key` with its key returns the very same (now deleted)
instance with zero storage queries, whatever rows the backing store would
return — including none at all. -/
theorem c10_delete_keeps_cache_entry (K : Type) [DecidableEq K] (st : EState K)
    (i : Nat) (inst : Inst K) (k : K)
    (hheap : alookup st.heap i = some inst) (hdb : inst.in_db = true)
    (hkey : inst.key = some k) (hc : alookup st.cache k = some i) :
    ∃ st1, entity_delete st i = Except.ok (st1, 1) ∧
      st1.cache = st.cache ∧
      alookup st1.heap i = some (Inst.mk (some k) false) ∧
      (∀ db : K → List (Inst K), find_by_key st1 k db = Except.ok (i, st1, 0)) := by
  refine ⟨{ st with heap := aset st.heap i { inst with in_db := false } }, ?_, rfl, ?_, ?_⟩
  · unfold entity_delete
    rw [hheap]
    simp [hdb]
  · simp [alookup_aset_self, hkey]
  · intro db
    unfold find_by_key
    simp [hc]

/-- Witness for C10 at a concrete input: instance id 4 with key `2`, cached
and persisted; after delete the cache still serves it with zero queries even
though the backing store returns no rows. -/
theorem c10_delete_keeps_cache_entry_witness :
    ∃ st1, entity_delete (EState.mk [(4, Inst.mk (some 2) true)] [(2, 4)] 5) 4 =
        Except.ok (st1, 1) ∧
      st1.cache = [(2, 4)] ∧
      alookup st1.heap 4 = some (Inst.mk (some 2) false) ∧
      (∀ db : Nat → List (Inst Nat), find_by_key st1 2 db = Except.ok (4, st1, 0)) := by
  exact c10_delete_keeps_cache_entry Nat
    (EState.mk [(4, Inst.mk (some 2) true)] [(2, 4)] 5) 4
    (Inst.mk (some 2) true) 2 rfl rfl rfl rfl

/-- C3 (divergence at a concrete input): deleting a real-time entity (id 1)
with one registered listener (id 7) persists the deletion first, fires that
listener's delete hook exactly once, and removes the entity from the
listener's listenee set — but the entity's own listener set still contains
`7` afterwards: `RTEntity.delete` never clears `self._listeners`, so the
claimed "listener set is empty afterwards / a subsequent add_listener starts
from an empty set" does not hold on the code. -/
theorem c3_rt_delete_leaves_listener_set :
    rt_delete 1 (RTState.mk [7] [(7, [1])] true) =
      Except.ok (RTState.mk [7] [(7, [])] false,
        [RTEvent.dbDelete, RTEvent.deleteHook 7]) ∧
    (RTState.mk [7] [(7, [])] false).listeners = [7] := by
  exact ⟨rfl, rfl⟩

/-- C9 (divergence at a concrete input): `remove_all_listeners` on an entity
(id 1) with two registered listeners (ids 4 and 8) removes listener 4 and
back-unregisters it, then raises
`RuntimeError("Set changed size during iteration")` because the loop mutates
the set being iterated: it neither completes normally nor empties the
listener set (8 is still registered, with the entity still in its listenee
set). -/
theorem c9_remove_all_listeners_raises :
    remove_all_listeners 1 (RTState.mk [4, 8] [(4, [1]), (8, [1])] true) =
      (RTState.mk [8] [(4, []), (8, [1])] true,
       some (PyErr.runtimeError msgSetChanged)) := by
  rfl

/-- C4: assigning a new value to a live foreign-key field of referrer
`objId` produces, in order: the cached old target's `remove_reference` hook
with the referrer (only when the old referenced key is cached), the write of
the new value into the referrer's storage, and the cached new target's
`new_reference` hook with the referrer (only when the new key is cached);
when the old or new key is absent from the cache the corresponding hook does
not fire.  Stated for both the single-column and the multi-column variant. -/
theorem c4_reference_rewiring (V : Type) [DecidableEq V] (cache : List (V × Nat))
    (mcache : List (List (Option V) × Nat)) (objId : Nat) (kold v : V)
    (fields : List (PyField V)) (tkey vs : List (Option V)) (t1 t2 : Nat) :
    ((alookup cache kold = some t1 → alookup cache v = some t2 →
      rtSingleReference_set cache (PyField.val kold) objId v =
        (PyField.val v,
         [SetEvent.removeReferenceCall t1 objId, SetEvent.fieldWrite v,
          SetEvent.newReferenceCall t2 objId])) ∧
     (alookup cache kold = none → alookup cache v = some t2 →
      rtSingleReference_set cache (PyField.val kold) objId v =
        (PyField.val v,
         [SetEvent.fieldWrite v, SetEvent.newReferenceCall t2 objId])) ∧
     (alookup cache kold = some t1 → alookup cache v = none →
      rtSingleReference_set cache (PyField.val kold) objId v =
        (PyField.val v,
         [SetEvent.removeReferenceCall t1 objId, SetEvent.fieldWrite v])) ∧
     (alookup cache kold = none → alookup cache v = none →
      rtSingleReference_set cache (PyField.val kold) objId v =
        (PyField.val v, [SetEvent.fieldWrite v]))) ∧
    (pyTupleGet fields = some tkey → alookup mcache tkey = some t1 →
      alookup mcache vs = some t2 →
      rtReference_set mcache fields objId vs =
        (vs.map (fun o => match o with
          | none => PyField.pynull
          | some w => PyField.val w),
         [SetEvent.removeReferenceCall t1 objId, SetEvent.fieldWrite vs,
          SetEvent.newReferenceCall t2 objId])) := by
  refine ⟨⟨?_, ?_, ?_, ?_⟩, ?_⟩
  · intro h1 h2
    unfold rtSingleReference_set
    simp [h1, h2]
  · intro h1 h2
    unfold rtSingleReference_set
    simp [h1, h2]
  · intro h1 h2
    unfold rtSingleReference_set
    simp [h1, h2]
  · intro h1 h2
    unfold rtSingleReference_set
    simp [h1, h2]
  · intro h0 h1 h2
    unfold rtReference_set
    simp [h0, h1, h2]

/-- Witness for C4 at a concrete input: targets with keys 1 and 2 cached as
instances 10 and 20; reassigning the reference of referrer 5 from key 1 to
key 2 fires exactly `remove_reference` on 10, the write, and `new_reference`
on 20 — in both the single and the multi-column variant. -/
theorem c4_reference_rewiring_witness :
    rtSingleReference_set [(1, 10), (2, 20)] (PyField.val 1) 5 2 =
      (PyField.val 2,
       [SetEvent.removeReferenceCall 10 5, SetEvent.fieldWrite 2,
        SetEvent.newReferenceCall 20 5]) ∧
    rtReference_set [([some 1], 10), ([some 2], 20)] [PyField.val 1] 5 [some 2] =
      ([PyField.val 2],
       [SetEvent.removeReferenceCall 10 5, SetEvent.fieldWrite [some 2],
        SetEvent.newReferenceCall 20 5]) := by
  have h := c4_reference_rewiring Nat [(1, 10), (2, 20)]
    [([some 1], 10), ([some 2], 20)] 5 1 2 [PyField.val 1] [some 1] [some 2] 10 20
  exact ⟨h.1.1 rfl rfl, h.2 rfl rfl rfl⟩

/-- C8 (divergence at a concrete input): a constrained non-key property
rejecting a value raises `PropertyConstraintFail` carrying the owning
instance (id 3) and the property, with nothing written — as claimed; but the
same rejection on a single-property key raises `NameError` (the unbound name
`single_prop` in `SingleKey.__set__`), not `PropertyConstraintFail`, so the
claim fails for key-field assignment.  An accepted value is stored under the
property's dataname. -/
theorem c8_constraint_failure :
    constrainedProperty_set (fun n : Nat => decide (8 < n)) 3 pnPassword []
        dnPassword 5 =
      Except.error (PyErr.propertyConstraintFail 3 pnPassword) ∧
    singleKey_set (some fun n : Nat => decide (8 < n)) [] dnPassword 5 =
      Except.error (PyErr.nameError nmSingleProp) ∧
    PyErr.nameError nmSingleProp ≠ PyErr.propertyConstraintFail 3 pnPassword ∧
    constrainedProperty_set (fun n : Nat => decide (8 < n)) 3 pnPassword []
        dnPassword 9 =
      Except.ok [(dnPassword, 9)] := by
  refine ⟨rfl, rfl, by simp, rfl⟩

/-- Resolving the references of a class body succeeds whenever every
declared reference targets a type with a nonempty resolved key. -/
theorem resolveRefs_ok (l : List (String × RefDecl))
    (h : ∀ p ∈ l, (Prod.snd p).refKeyProps.length ≠ 0) :
    ∃ rs, resolveRefs l = Except.ok rs := by
  induction l with
  | nil => exact ⟨[], rfl⟩
  | cons p t ih =>
    obtain ⟨rs, hrs⟩ := ih (fun q hq => h q (List.mem_cons_of_mem p hq))
    have hp := h p (List.mem_cons_self p t)
    obtain ⟨nm, r⟩ := p
    refine ⟨RRef.mk nm (expandRef nm r) r.refTable r.cascade
      ((expandRef nm r).length == 1) :: rs, ?_⟩
    unfold resolveRefs
    simp only [resolveRef, if_neg hp, hrs]

/-- C2 (counterexample): a schema whose composite key contains two
references resolves successfully — schema resolution does not reject it, so
the claim that resolution fails in exactly that case is false on the code. -/
theorem c2_two_refs_in_key_resolve_ok :
    resolve pairDecl =
      Except.ok (ResolvedEntity.mk "table_Pair"
        [RProp.mk "a_UID" "INT" "" true true, RProp.mk "b_UID" "INT" "" true true]
        [RRef.mk "a" [RProp.mk "a_UID" "INT" "" true true] "table_User" true true,
         RRef.mk "b" [RProp.mk "b_UID" "INT" "" true true] "table_User" true true]
        [RProp.mk "a_UID" "INT" "" true true, RProp.mk "b_UID" "INT" "" true true]
        false 2 false) := by
  rfl

/-- C2 (amended): with every declared reference targeting a type with a
resolved (nonempty) key, schema resolution of a class with no `key` binding
fails at class-definition time with the assert
`"Each class must have a key"` — an `AssertionError`, not a typed
`SchemaError`; and a composite key with two references resolves fine, being
rejected only by the `assert len(refs) == 1` scan of
`SparrowModel.json_info` (for classes with a custom `json_repr`). -/
theorem c2_schema_resolution_amended :
    (∀ d : EntityDecl, d.key = none →
      (∀ nm r, ClassItem.ref nm r ∈ d.items → r.refKeyProps.length ≠ 0) →
      resolve d = Except.error (PyErr.assertionError msgNoKey)) ∧
    (∃ r, resolve pairDecl = Except.ok r ∧
      json_info_key_check r true = some (PyErr.assertionError msgMultiRefKey)) := by
  constructor
  · intro d hkey href
    have hall : ∀ p ∈ d.items.filterMap (fun it =>
        match it with
        | ClassItem.ref nm r => some (nm, r)
        | _ => none), (Prod.snd p).refKeyProps.length ≠ 0 := by
      intro p hp
      obtain ⟨it, hit, hfit⟩ := List.mem_filterMap.1 hp
      cases it with
      | prop nm q => exact absurd hfit (by simp)
      | keyprop nm => exact absurd hfit (by simp)
      | ref nm r =>
        have hpr : (nm, r) = p := by simpa using hfit
        subst hpr
        exact href nm r hit
    obtain ⟨rs, hrs⟩ := resolveRefs_ok _ hall
    unfold resolve
    simp only [hrs, hkey]
  · refine ⟨ResolvedEntity.mk "table_Pair"
      [RProp.mk "a_UID" "INT" "" true true, RProp.mk "b_UID" "INT" "" true true]
      [RRef.mk "a" [RProp.mk "a_UID" "INT" "" true true] "table_User" true true,
       RRef.mk "b" [RProp.mk "b_UID" "INT" "" true true] "table_User" true true]
      [RProp.mk "a_UID" "INT" "" true true, RProp.mk "b_UID" "INT" "" true true]
      false 2 false, rfl, rfl⟩

/-- Witness for the amended C2 at a concrete input: the keyless class body
`noKeyDecl` is rejected by the no-key assert. -/
theorem c2_schema_resolution_amended_witness :
    resolve noKeyDecl = Except.error (PyErr.assertionError msgNoKey) := by
  exact c2_schema_resolution_amended.1 noKeyDecl rfl
    (fun nm r hmem => by simp [noKeyDecl] at hmem)

/-- C7 (divergence at a concrete input): with `cascade=True` the create-table
statement is exactly as claimed — one column definition per property (type,
NOT NULL, extras), one non-empty foreign-key constraint listing the
reference's expanded columns and the referenced table, and one primary-key
constraint from the key descriptor; but with `cascade=False` the
reference's constraint string is empty (the `" ON DELETE CASCADE" if
self.cascade else ""` conditional wraps the whole concatenation), so the
statement carries no FOREIGN KEY clause at all for that reference, only a
stray empty line. -/
theorem c7_create_table_fk_constraint :
    (∃ r, resolve (messageDecl true) = Except.ok r ∧
      r.refs.map RRef.sql_constraint =
        ["\tFOREIGN KEY (author_UID) REFERENCES table_User ON DELETE CASCADE"] ∧
      createTable r =
        "\nCREATE TABLE table_Message (\n\tmsg VARCHAR NOT NULL,\n\tMID SERIAL,\n\tauthor_UID INT NOT NULL,\n\tFOREIGN KEY (author_UID) REFERENCES table_User ON DELETE CASCADE,\n\tPRIMARY KEY (MID)\n); \n") ∧
    (∃ r, resolve (messageDecl false) = Except.ok r ∧
      r.refs.map RRef.sql_constraint = [""] ∧
      createTable r =
        "\nCREATE TABLE table_Message (\n\tmsg VARCHAR NOT NULL,\n\tMID SERIAL,\n\tauthor_UID INT NOT NULL,\n,\n\tPRIMARY KEY (MID)\n); \n") := by
  constructor
  · exact ⟨ResolvedEntity.mk "table_Message"
      [RProp.mk "msg" "VARCHAR" "" true true, RProp.mk "MID" "SERIAL" "" false true,
       RProp.mk "author_UID" "INT" "" true true]
      [RRef.mk "author" [RProp.mk "author_UID" "INT" "" true true] "table_User" true true]
      [keyPropertyRProp "MID"] true 0 true, rfl, rfl, rfl⟩
  · exact ⟨ResolvedEntity.mk "table_Message"
      [RProp.mk "msg" "VARCHAR" "" true true, RProp.mk "MID" "SERIAL" "" false true,
       RProp.mk "author_UID" "INT" "" true true]
      [RRef.mk "author" [RProp.mk "author_UID" "INT" "" true true] "table_User" false true]
      [keyPropertyRProp "MID"] true 0 true, rfl, rfl, rfl⟩

end Sparrow
